import Mathlib

/-!
Shallow embedding of `extensions/main.go` from the verve-challenge-go
repository: a deduplication service that claims integer identifiers in a
shared Redis store (SetNX with a one-minute TTL), periodically drains the
store and publishes the window count to Kafka, and optionally notifies a
caller-supplied endpoint.

External effects (Redis, Kafka, HTTP) are modelled explicitly: the store is
a list of keys, fallible calls take an `Except` parameter describing the
outcome of the underlying I/O, and functions that perform I/O return an
ordered list of `Effect` values recording what they did, in order.
-/

namespace Verve

/-- A JSON scalar value, enough for the payloads this program builds. -/
inductive Json where
  | num (n : Int)
  | str (s : String)
deriving DecidableEq

/-- A Kafka message: key plus a JSON object value given as an ordered field
list (Go marshals a `map[string]interface\x7b\x7d` with keys sorted). -/
structure KafkaMessage where
  key : String
  value : List (String × Json)
deriving DecidableEq

/-- One observable external action, in program order. -/
inductive Effect where
  | dialAttempt (i : Nat)
  | sleep (seconds : Nat)
  | logLine (s : String)
  | kafkaSend (m : KafkaMessage)
  | redisDel (key : String)
  | httpPost (endpoint : String) (body : List (String × Json))
deriving DecidableEq

def isKafkaSend : Effect → Bool
  | .kafkaSend _ => true
  | _ => false

def isRedisDel : Effect → Bool
  | .redisDel _ => true
  | _ => false

def isHttpPost : Effect → Bool
  | .httpPost _ _ => true
  | _ => false

def isSleep : Effect → Bool
  | .sleep _ => true
  | _ => false

def isDialAttempt : Effect → Bool
  | .dialAttempt _ => true
  | _ => false

/-- The two-field payload built in `publishToKafka` and
`sendCountToEndpoint` (main.go lines 98-101 and 146-149): keys in the order
Go json.Marshal emits them (sorted: "timestamp" < "unique_request_count").
The timestamp string is the capture time formatted with RFC3339, passed in
as a parameter here. -/
def mkPayload (count : Int) (ts : String) : List (String × Json) :=
  [("timestamp", Json.str ts), ("unique_request_count", Json.num count)]

/-- `publishToKafka` (main.go lines 97-118): build the payload, send one
Kafka message with fixed key "unique-id-count"; a send failure is logged
and the function returns, never retrying. `sendRes` is the outcome of the
single WriteMessages call. -/
def publishToKafka (count : Int) (ts : String) (sendRes : Except String Unit) : List Effect :=
  let m : KafkaMessage := ⟨"unique-id-count", mkPayload count ts⟩
  match sendRes with
  | .error e => [.kafkaSend m, .logLine ("Failed to write message to Kafka: " ++ e)]
  | .ok _ => [.kafkaSend m, .logLine ("Published to Kafka: " ++ ts)]

/-- One tick of `logAndNotifyUniqueRequests` (main.go lines 121-142):
enumerate all keys (`enumRes` is the outcome of the KEYS call), on error
log and continue (skip the tick); otherwise count the keys, publish the
count to Kafka, then delete every enumerated key. -/
def logAndNotifyTick (enumRes : Except String (List String)) (ts : String)
    (sendRes : Except String Unit) : List Effect :=
  match enumRes with
  | .error e => [.logLine ("Error fetching keys from Redis: " ++ e)]
  | .ok keys => publishToKafka (keys.length : Int) ts sendRes ++ keys.map .redisDel

/-- The Redis SetNX primitive on the modelled store (a list of present
keys): create the key only if absent, report whether it was created. The
one-minute TTL set alongside (main.go line 169) is the aggregation
interval; expiry is modelled by key removal from the store list. -/
def setNX (s : List String) (key : String) : Bool × List String :=
  if key ∈ s then (false, s) else (true, key :: s)

/-- `isUniqueID` on a reachable store (main.go lines 167-175): SetNX on the
decimal string form of the id. Returns the claim result and the new store. -/
def claim (s : List String) (id : Int) : Bool × List String :=
  setNX s (toString id)

/-- The result part of `isUniqueID` (main.go lines 167-175) as a function
of the SetNX call outcome: a store error yields `false` (fail closed). -/
def isUniqueID (reply : Except String Bool) : Bool :=
  match reply with
  | .error _ => false
  | .ok r => r

/-- The log lines `isUniqueID` emits: one error line when the store call
failed, nothing otherwise. -/
def isUniqueIDLogs (reply : Except String Bool) : List String :=
  match reply with
  | .error e => ["Error checking ID in Redis: " ++ e]
  | .ok _ => []

/-- Decimal digit value of a character, none for a non-digit. -/
def digitVal (c : Char) : Option Nat :=
  if '0' ≤ c ∧ c ≤ '9' then some (c.toNat - '0'.toNat) else none

def digitsToNatAux : List Char → Nat → Option Nat
  | [], acc => some acc
  | c :: cs, acc =>
    match digitVal c with
    | none => none
    | some d => digitsToNatAux cs (acc * 10 + d)

/-- Parse a nonempty all-digit character list as a natural number. -/
def digitsToNat : List Char → Option Nat
  | [] => none
  | cs => digitsToNatAux cs 0

/-- `strconv.Atoi` (base 10): optional sign, then one or more digits;
anything else fails. The empty string fails, so a missing `id` parameter
(which Go reports as the empty string) is a parse error. -/
def atoi (s : String) : Option Int :=
  match s.data with
  | '+' :: rest => (digitsToNat rest).map (fun n => (n : Int))
  | '-' :: rest => (digitsToNat rest).map (fun n => -(n : Int))
  | cs => (digitsToNat cs).map (fun n => (n : Int))

/-- An incoming request as the handler sees it: HTTP method and the two
query parameters (Go returns "" for an absent parameter). -/
structure Request where
  method : String
  idParam : String
  endpoint : String
deriving DecidableEq

structure Response where
  status : Nat
  body : String
deriving DecidableEq

/-- What one call of the handler did: the HTTP response, the store after
the call, whether `isUniqueID` was reached, and the notification dispatched
to the caller endpoint (endpoint and the count sent), if any. -/
structure HandlerOutcome where
  response : Response
  store : List String
  claimCalled : Bool
  notification : Option (String × Nat)
deriving DecidableEq

/-- `acceptHandler` (main.go lines 177-209). `storeUp` says whether the
Redis SetNX call succeeds; when it fails, `isUniqueID` logs and reports
non-unique. The notification count re-enumerates the store after the claim
(main.go lines 204-205); it fires only on the unique path with a nonempty
endpoint, after the response has been written. -/
def acceptHandler (r : Request) (s : List String) (storeUp : Bool) : HandlerOutcome :=
  if r.method ≠ "GET" then
    ⟨⟨405, "Only GET method is supported"⟩, s, false, none⟩
  else
    match atoi r.idParam with
    | none => ⟨⟨400, "Invalid or missing id parameter"⟩, s, false, none⟩
    | some id =>
      if id ≤ 0 then
        ⟨⟨400, "Invalid or missing id parameter"⟩, s, false, none⟩
      else
        let reply : Except String Bool :=
          if storeUp then .ok (setNX s (toString id)).1 else .error "store unreachable"
        let s1 := if storeUp then (setNX s (toString id)).2 else s
        if isUniqueID reply = false then
          ⟨⟨200, "ok (duplicate), retry with different id"⟩, s1, true, none⟩
        else
          ⟨⟨200, "ok"⟩, s1, true,
            if r.endpoint ≠ "" then some (r.endpoint, s1.length) else none⟩

/-- `sendCountToEndpoint` (main.go lines 145-165): marshal the payload,
POST it once to the endpoint; an error is logged and the function returns,
with no retry. `postRes` is the outcome of the single http.Post call (the
status code on success). -/
def sendCountToEndpoint (endpoint : String) (count : Int) (ts : String)
    (postRes : Except String Nat) : List Effect :=
  let body := mkPayload count ts
  match postRes with
  | .error e => [.httpPost endpoint body, .logLine ("Error sending request to endpoint: " ++ e)]
  | .ok status => [.httpPost endpoint body,
      .logLine ("Sent count to endpoint, status code: " ++ toString status)]

/-- Run a window of claims in order against the store, recording each
claim result; returns the result list and the final store. -/
def runClaims : List Int → List String → List (Int × Bool) × List String
  | [], s => ([], s)
  | id :: rest, s =>
    let p := claim s id
    let q := runClaims rest p.2
    ((id, p.1) :: q.1, q.2)

/-- `waitForKafka` loop body (main.go lines 55-69): `dial i` is the outcome
of the i-th kafka.Dial attempt; after each failure the loop logs and sleeps
`delaySec` seconds. Returns the Go function result and the effect trace. -/
def waitForKafkaAux (dial : Nat → Bool) (delaySec : Nat) : Nat → Nat → Except String Unit × List Effect
  | _, 0 => (.error "could not connect to Kafka", [])
  | i, n + 1 =>
    if dial i then
      (.ok (), [.dialAttempt i, .logLine "Connected to Kafka"])
    else
      let p := waitForKafkaAux dial delaySec (i + 1) n
      (p.1, .dialAttempt i :: .logLine "Failed to connect to Kafka" :: .sleep delaySec :: p.2)

/-- `waitForKafka broker retries delay` (main.go lines 55-69). -/
def waitForKafka (dial : Nat → Bool) (retries delaySec : Nat) : Except String Unit × List Effect :=
  waitForKafkaAux dial delaySec 0 retries

/-- Outcome of `createKafkaTopic` during startup: `log.Fatalf` aborts the
process before the HTTP server starts (`fatal`), otherwise the process goes
on to serve, remembering whether topic creation succeeded. -/
inductive StartupOutcome where
  | fatal (msg : String)
  | serving (topicCreated : Bool)
deriving DecidableEq

/-- `createKafkaTopic` (main.go lines 71-94): wait for Kafka with 10
retries and a 5 second delay; exhausted retries are fatal. Then dial once
more (`dialAfter` its outcome; failure fatal) and issue CreateTopics with 1
partition and replication factor 1 (`createRes` its outcome); a creation
failure is only logged and the process continues. -/
def createKafkaTopic (dial : Nat → Bool) (dialAfter : Bool)
    (createRes : Except String Unit) : StartupOutcome :=
  match (waitForKafka dial 10 5).1 with
  | .error _ => .fatal "Kafka is not ready"
  | .ok _ =>
    if dialAfter then
      match createRes with
      | .error _ => .serving false
      | .ok _ => .serving true
    else .fatal "Failed to connect to Kafka broker"

/-- Index of the first Kafka send in an effect trace. -/
def sendIdx (es : List Effect) : Nat :=
  es.findIdx isKafkaSend

def delIdxsFrom : Nat → List Effect → List Nat
  | _, [] => []
  | i, e :: es =>
    if isRedisDel e then i :: delIdxsFrom (i + 1) es else delIdxsFrom (i + 1) es

/-- Indices of all Redis deletions in an effect trace. -/
def delIdxs (es : List Effect) : List Nat :=
  delIdxsFrom 0 es

/-- The order claimed by the spec for one aggregator tick: every record
deletion happens before the Kafka publish. -/
def deletionPrecedesPublish (es : List Effect) : Bool :=
  (delIdxs es).all (fun i => i < sendIdx es)

/-- The order the code actually implements: the Kafka publish happens
before every record deletion. -/
def publishPrecedesDeletion (es : List Effect) : Bool :=
  (delIdxs es).all (fun i => sendIdx es < i)

lemma setNX_of_not_mem {s : List String} {key : String} (h : key ∉ s) :
    setNX s key = (true, key :: s) := by
  simp [setNX, h]

lemma setNX_of_mem {s : List String} {key : String} (h : key ∈ s) :
    setNX s key = (false, s) := by
  simp [setNX, h]

/-- On a successful enumeration, a tick is exactly: one Kafka send carrying
the key count, one log line, then one deletion per enumerated key. -/
lemma tick_ok_eq (keys : List String) (ts : String) (sendRes : Except String Unit) :
    ∃ l, logAndNotifyTick (.ok keys) ts sendRes =
      .kafkaSend ⟨"unique-id-count", mkPayload (keys.length : Int) ts⟩ ::
        .logLine l :: keys.map .redisDel := by
  cases sendRes <;> exact ⟨_, rfl⟩

lemma delIdxsFrom_le (es : List Effect) : ∀ i, ∀ j ∈ delIdxsFrom i es, i ≤ j := by
  induction es with
  | nil => intro i j h; simp [delIdxsFrom] at h
  | cons e es ih =>
    intro i j h
    rw [delIdxsFrom] at h
    by_cases hc : isRedisDel e = true
    · rw [if_pos hc] at h
      rcases List.mem_cons.mp h with rfl | h2
      · exact Nat.le_refl j
      · exact Nat.le_trans (Nat.le_succ i) (ih (i + 1) j h2)
    · rw [if_neg hc] at h
      exact Nat.le_trans (Nat.le_succ i) (ih (i + 1) j h)

/-- Claim C1: for a positive identifier, the first claim in a window
succeeds (returns true) and deposits the key in the store; every later
claim of the same identifier, while the record is still present, returns
false. The handler answers 200 "ok" on the first claim and 200
"ok (duplicate), retry with different id" while the record persists. -/
theorem c1_first_claim_unique_then_duplicate (id : Int) (s : List String) (r : Request)
    (hpos : 0 < id) (habs : toString id ∉ s)
    (hm : r.method = "GET") (hid : atoi r.idParam = some id) :
    (claim s id).1 = true ∧
    toString id ∈ (claim s id).2 ∧
    (∀ s2, toString id ∈ s2 → (claim s2 id).1 = false) ∧
    (acceptHandler r s true).response = ⟨200, "ok"⟩ ∧
    toString id ∈ (acceptHandler r s true).store ∧
    (∀ s2, toString id ∈ s2 →
      (acceptHandler r s2 true).response = ⟨200, "ok (duplicate), retry with different id"⟩) := by
  have hnpos : ¬ id ≤ 0 := by omega
  have h1 : setNX s (toString id) = (true, toString id :: s) := setNX_of_not_mem habs
  refine ⟨?_, ?_, ?_, ?_, ?_, ?_⟩
  · simp [claim, h1]
  · simp [claim, h1]
  · intro s2 h2
    simp [claim, setNX_of_mem h2]
  · simp [acceptHandler, hm, hid, hnpos, h1, isUniqueID]
  · simp [acceptHandler, hm, hid, hnpos, h1, isUniqueID]
  · intro s2 h2
    simp [acceptHandler, hm, hid, hnpos, setNX_of_mem h2, isUniqueID]

/-- Witness for C1 at id 5 on the empty store: unique, then the immediate
repeat on the resulting store is a duplicate. -/
theorem c1_witness :
    (claim ([] : List String) 5).1 = true ∧
    (acceptHandler ⟨"GET", "5", ""⟩ [] true).response = ⟨200, "ok"⟩ ∧
    (acceptHandler ⟨"GET", "5", ""⟩ (acceptHandler ⟨"GET", "5", ""⟩ [] true).store true).response =
      ⟨200, "ok (duplicate), retry with different id"⟩ := by
  have h := c1_first_claim_unique_then_duplicate 5 [] ⟨"GET", "5", ""⟩
    (by norm_num) (by simp) rfl (by decide)
  exact ⟨h.1, h.2.2.2.1, h.2.2.2.2.2 _ h.2.2.2.2.1⟩

/-- Claim C3: a failed store call makes the claim fail closed: `isUniqueID`
returns false (never true) and logs the error. -/
theorem c3_store_error_fails_closed (e : String) :
    isUniqueID (.error e) = false ∧
    isUniqueIDLogs (.error e) = ["Error checking ID in Redis: " ++ e] :=
  ⟨rfl, rfl⟩

/-- Claim C7: every published message carries exactly the two JSON fields
timestamp and unique_request_count under the fixed key "unique-id-count";
exactly one send happens whatever the send outcome (at most once, no
retry), and a send failure is logged. -/
theorem c7_published_message_shape (count : Int) (ts : String) :
    (∀ sendRes, (publishToKafka count ts sendRes).filter isKafkaSend =
      [Effect.kafkaSend ⟨"unique-id-count",
        [("timestamp", Json.str ts), ("unique_request_count", Json.num count)]⟩]) ∧
    (∀ e, Effect.logLine ("Failed to write message to Kafka: " ++ e) ∈
      publishToKafka count ts (.error e)) := by
  constructor
  · intro sendRes
    cases sendRes <;> rfl
  · intro e
    simp [publishToKafka]

/-- Claim C8: when the enumeration fails, the tick only logs: no Kafka
send, no deletion; the tick function is total, so the periodic task
survives to retry at the next interval. -/
theorem c8_enum_failure_skips_tick (e ts : String) (sendRes : Except String Unit) :
    logAndNotifyTick (.error e) ts sendRes =
      [.logLine ("Error fetching keys from Redis: " ++ e)] ∧
    (logAndNotifyTick (.error e) ts sendRes).filter isKafkaSend = [] ∧
    (logAndNotifyTick (.error e) ts sendRes).filter isRedisDel = [] :=
  ⟨rfl, rfl, rfl⟩

/-- Counterexample to C2 as stated: on a tick that enumerates the single
key "1" and whose send succeeds, the deletion does not precede the Kafka
publish (the trace is send, log, delete). -/
theorem c2_counterexample :
    deletionPrecedesPublish
      (logAndNotifyTick (.ok ["1"]) "2024-01-01T00:00:00Z" (.ok ())) = false := by
  decide

lemma sendIdx_tick (keys : List String) (ts : String) (sendRes : Except String Unit) :
    sendIdx (logAndNotifyTick (.ok keys) ts sendRes) = 0 := by
  obtain ⟨l, h⟩ := tick_ok_eq keys ts sendRes
  rw [h]
  simp [sendIdx, List.findIdx_cons, isKafkaSend]

lemma delIdxs_tick_ge_two (keys : List String) (ts : String) (sendRes : Except String Unit) :
    ∀ j ∈ delIdxs (logAndNotifyTick (.ok keys) ts sendRes), 2 ≤ j := by
  obtain ⟨l, h⟩ := tick_ok_eq keys ts sendRes
  rw [h]
  intro j hj
  have h2 : delIdxs (Effect.kafkaSend ⟨"unique-id-count", mkPayload (keys.length : Int) ts⟩ ::
      Effect.logLine l :: keys.map Effect.redisDel) =
      delIdxsFrom 2 (keys.map Effect.redisDel) := by
    simp [delIdxs, delIdxsFrom, isRedisDel]
  rw [h2] at hj
  exact delIdxsFrom_le _ 2 j hj

/-- Claim C2, amended: on a successful enumeration the tick publishes the
count to Kafka first and only then deletes the enumerated records — the
publish (at trace index 0) strictly precedes every deletion, and the trace
is exactly: send the count of the enumeration, log, delete each key. -/
theorem c2_publish_precedes_deletion (keys : List String) (ts : String)
    (sendRes : Except String Unit) :
    publishPrecedesDeletion (logAndNotifyTick (.ok keys) ts sendRes) = true ∧
    sendIdx (logAndNotifyTick (.ok keys) ts sendRes) = 0 ∧
    ∃ l, logAndNotifyTick (.ok keys) ts sendRes =
      .kafkaSend ⟨"unique-id-count", mkPayload (keys.length : Int) ts⟩ ::
        .logLine l :: keys.map .redisDel := by
  refine ⟨?_, sendIdx_tick keys ts sendRes, tick_ok_eq keys ts sendRes⟩
  rw [publishPrecedesDeletion, List.all_eq_true]
  intro j hj
  have h1 := delIdxs_tick_ge_two keys ts sendRes j hj
  have h2 := sendIdx_tick keys ts sendRes
  simp [h2]
  omega

/-- Counterexample to C5 as stated: a well-formed duplicate request that
supplies a nonempty endpoint yields no notification at all. -/
theorem c5_counterexample_duplicate_no_notification :
    (acceptHandler ⟨"GET", "5", "http://cb.example"⟩ ["5"] true).response =
      ⟨200, "ok (duplicate), retry with different id"⟩ ∧
    (acceptHandler ⟨"GET", "5", "http://cb.example"⟩ ["5"] true).notification = none := by
  decide

/-- Claim C5, amended: only on the unique path does a valid request with a
nonempty endpoint trigger the notification, carrying the endpoint and the
freshly re-enumerated store count; a duplicate request triggers none. The
response does not depend on the endpoint parameter, and the notification
sender issues exactly one POST whatever the outcome (no retry). -/
theorem c5_notification_only_on_unique (r : Request) (s : List String) (id : Int) (ts : String)
    (hm : r.method = "GET") (hid : atoi r.idParam = some id) (hpos : 0 < id)
    (hep : r.endpoint ≠ "") :
    (toString id ∉ s →
      (acceptHandler r s true).notification =
        some (r.endpoint, (acceptHandler r s true).store.length)) ∧
    (toString id ∈ s → (acceptHandler r s true).notification = none) ∧
    (acceptHandler r s true).response = (acceptHandler ⟨r.method, r.idParam, ""⟩ s true).response ∧
    (∀ c postRes, ((sendCountToEndpoint r.endpoint c ts postRes).filter isHttpPost).length = 1) := by
  have hnpos : ¬ id ≤ 0 := by omega
  refine ⟨?_, ?_, ?_, ?_⟩
  · intro habs
    simp [acceptHandler, hm, hid, hnpos, setNX_of_not_mem habs, isUniqueID, hep]
  · intro hmem
    simp [acceptHandler, hm, hid, hnpos, setNX_of_mem hmem, isUniqueID]
  · by_cases hmem : toString id ∈ s
    · simp [acceptHandler, hm, hid, hnpos, setNX_of_mem hmem, isUniqueID]
    · simp [acceptHandler, hm, hid, hnpos, setNX_of_not_mem hmem, isUniqueID]
  · intro c postRes
    cases postRes <;> rfl

/-- Witness for the amended C5 at id 7: unique path notifies with the new
store count, duplicate path does not notify. -/
theorem c5_witness :
    (acceptHandler ⟨"GET", "7", "http://cb"⟩ [] true).notification =
      some ("http://cb", (acceptHandler ⟨"GET", "7", "http://cb"⟩ [] true).store.length) ∧
    (acceptHandler ⟨"GET", "7", "http://cb"⟩ ["7"] true).notification = none := by
  have h1 := c5_notification_only_on_unique ⟨"GET", "7", "http://cb"⟩ [] 7 "t"
    rfl (by decide) (by norm_num) (by decide)
  have h2 := c5_notification_only_on_unique ⟨"GET", "7", "http://cb"⟩ ["7"] 7 "t"
    rfl (by decide) (by norm_num) (by decide)
  exact ⟨h1.1 (by simp), h2.2.1 (by decide)⟩

/-- Claim C9: a non-GET request is answered 405 without reaching the
claim; a GET whose id is missing or unparsable (the missing parameter
reads as "", which fails to parse) or parses non-positive is answered 400
without reaching the claim. -/
theorem c9_request_validation (r : Request) (s : List String) (storeUp : Bool) :
    (r.method ≠ "GET" →
      (acceptHandler r s storeUp).response = ⟨405, "Only GET method is supported"⟩ ∧
      (acceptHandler r s storeUp).claimCalled = false) ∧
    (r.method = "GET" → atoi r.idParam = none →
      (acceptHandler r s storeUp).response = ⟨400, "Invalid or missing id parameter"⟩ ∧
      (acceptHandler r s storeUp).claimCalled = false) ∧
    (∀ id, r.method = "GET" → atoi r.idParam = some id → id ≤ 0 →
      (acceptHandler r s storeUp).response = ⟨400, "Invalid or missing id parameter"⟩ ∧
      (acceptHandler r s storeUp).claimCalled = false) ∧
    atoi "" = none := by
  refine ⟨?_, ?_, ?_, rfl⟩
  · intro h
    simp [acceptHandler, h]
  · intro hm hid
    simp [acceptHandler, hm, hid]
  · intro id hm hid hle
    simp [acceptHandler, hm, hid, hle]

/-- Witness for C9: a POST gets 405, id "abc" gets 400, id "-3" does not
reach the claim. -/
theorem c9_witness :
    (acceptHandler ⟨"POST", "5", ""⟩ [] true).response = ⟨405, "Only GET method is supported"⟩ ∧
    (acceptHandler ⟨"GET", "abc", ""⟩ [] true).response =
      ⟨400, "Invalid or missing id parameter"⟩ ∧
    (acceptHandler ⟨"GET", "-3", ""⟩ [] true).claimCalled = false := by
  refine ⟨((c9_request_validation ⟨"POST", "5", ""⟩ [] true).1 (by decide)).1,
    ((c9_request_validation ⟨"GET", "abc", ""⟩ [] true).2.1 rfl (by decide)).1,
    ((c9_request_validation ⟨"GET", "-3", ""⟩ [] true).2.2.1 (-3) rfl (by decide) (by norm_num)).2⟩

lemma filter_isRedisDel_map (keys : List String) :
    (keys.map Effect.redisDel).filter isRedisDel = keys.map Effect.redisDel := by
  rw [List.filter_eq_self]
  intro x hx
  obtain ⟨k, _, rfl⟩ := List.mem_map.mp hx
  rfl

/-- Claim C10: on a tick whose Kafka send fails, every enumerated record is
still deleted (the failure is only logged): the drain is unconditional, so
the window resets and its count is lost. -/
theorem c10_publish_failure_still_deletes (keys : List String) (ts e : String) (k : String)
    (hk : k ∈ keys) :
    Effect.redisDel k ∈ logAndNotifyTick (.ok keys) ts (.error e) ∧
    Effect.logLine ("Failed to write message to Kafka: " ++ e) ∈
      logAndNotifyTick (.ok keys) ts (.error e) ∧
    (logAndNotifyTick (.ok keys) ts (.error e)).filter isRedisDel =
      keys.map Effect.redisDel := by
  refine ⟨?_, ?_, ?_⟩
  · simp only [logAndNotifyTick]
    exact List.mem_append_right _ (List.mem_map_of_mem _ hk)
  · simp [logAndNotifyTick, publishToKafka]
  · simp only [logAndNotifyTick, publishToKafka, List.filter_append]
    rw [filter_isRedisDel_map]
    rfl

/-- Witness for C10 on keys 1 and 2 with a failing broker: key 2 is still
deleted. -/
theorem c10_witness :
    Effect.redisDel "2" ∈ logAndNotifyTick (.ok ["1", "2"]) "t" (.error "broker down") :=
  (c10_publish_failure_still_deletes ["1", "2"] "t" "broker down" "2" (by decide)).1

lemma runClaims_filter_length (ids : List Int) :
    ∀ s, ((runClaims ids s).1.filter (fun p => p.2)).length + s.length =
      (runClaims ids s).2.length := by
  induction ids with
  | nil =>
    intro s
    simp [runClaims]
  | cons id rest ih =>
    intro s
    by_cases h : toString id ∈ s
    · simp only [runClaims, claim, setNX_of_mem h]
      simpa [List.filter_cons] using ih s
    · simp only [runClaims, claim, setNX_of_not_mem h]
      have h2 := ih (toString id :: s)
      simp [List.filter_cons] at h2 ⊢
      omega

lemma runClaims_store_toFinset (ids : List Int) :
    ∀ s, (runClaims ids s).2.toFinset =
      s.toFinset ∪ (ids.map (fun i => toString i)).toFinset := by
  induction ids with
  | nil =>
    intro s
    simp [runClaims]
  | cons id rest ih =>
    intro s
    by_cases h : toString id ∈ s
    · simp only [runClaims, claim, setNX_of_mem h, List.map_cons, List.toFinset_cons]
      rw [ih s, Finset.union_insert,
        Finset.insert_eq_self.mpr (Finset.mem_union_left _ (List.mem_toFinset.mpr h))]
    · simp only [runClaims, claim, setNX_of_not_mem h, List.map_cons, List.toFinset_cons]
      rw [ih (toString id :: s)]
      simp only [List.toFinset_cons]
      rw [Finset.insert_union, Finset.union_insert]

lemma runClaims_nodup (ids : List Int) :
    ∀ s, s.Nodup → (runClaims ids s).2.Nodup := by
  induction ids with
  | nil =>
    intro s hs
    simpa [runClaims] using hs
  | cons id rest ih =>
    intro s hs
    by_cases h : toString id ∈ s
    · simp only [runClaims, claim, setNX_of_mem h]
      exact ih s hs
    · simp only [runClaims, claim, setNX_of_not_mem h]
      exact ih _ (List.nodup_cons.mpr ⟨h, hs⟩)

/-- Claim C4: running any sequence of claims on the window that starts
empty after a drain, the number of keys the next tick enumerates (and hence
the count it publishes) equals the number of claims that returned true, and
also equals the number of distinct identifiers claimed — each identifier
contributes at most once. -/
theorem c4_window_count_distinct (ids : List Int) (ts : String) (sendRes : Except String Unit) :
    ((runClaims ids []).2).length = (((runClaims ids []).1).filter (fun p => p.2)).length ∧
    ((runClaims ids []).2).length = (ids.map (fun i => toString i)).toFinset.card ∧
    Effect.kafkaSend ⟨"unique-id-count",
        mkPayload (((runClaims ids []).2).length : Int) ts⟩ ∈
      logAndNotifyTick (.ok (runClaims ids []).2) ts sendRes := by
  refine ⟨?_, ?_, ?_⟩
  · have h1 := runClaims_filter_length ids []
    simp at h1
    omega
  · have h2 := runClaims_store_toFinset ids []
    have h3 := runClaims_nodup ids [] (by simp)
    rw [← List.toFinset_card_of_nodup h3, h2]
    simp
  · obtain ⟨l, h⟩ := tick_ok_eq (runClaims ids []).2 ts sendRes
    rw [h]
    exact List.mem_cons_self _ _

lemma waitAux_all_fail (dial : Nat → Bool) (d : Nat) :
    ∀ n i, (∀ j, j < n → dial (i + j) = false) →
      (waitForKafkaAux dial d i n).1 = .error "could not connect to Kafka" ∧
      ((waitForKafkaAux dial d i n).2.filter isDialAttempt).length = n ∧
      (waitForKafkaAux dial d i n).2.filter isSleep = List.replicate n (.sleep d) := by
  intro n
  induction n with
  | zero =>
    intro i h
    exact ⟨rfl, rfl, rfl⟩
  | succ n ih =>
    intro i h
    have h0 : dial i = false := by simpa using h 0 (Nat.succ_pos n)
    have hrest : ∀ j, j < n → dial (i + 1 + j) = false := by
      intro j hj
      have heq : i + 1 + j = i + (j + 1) := by omega
      rw [heq]
      exact h (j + 1) (by omega)
    obtain ⟨r1, r2, r3⟩ := ih (i + 1) hrest
    refine ⟨?_, ?_, ?_⟩
    · simpa [waitForKafkaAux, h0] using r1
    · simpa [waitForKafkaAux, h0, List.filter_cons, isDialAttempt, isSleep] using r2
    · simp [waitForKafkaAux, h0, List.filter_cons, isDialAttempt, isSleep, r3,
        List.replicate_succ]

lemma waitAux_success (dial : Nat → Bool) (d : Nat) :
    ∀ n i, (∃ j, j < n ∧ dial (i + j) = true) →
      (waitForKafkaAux dial d i n).1 = .ok () := by
  intro n
  induction n with
  | zero =>
    intro i hex
    obtain ⟨j, hj, _⟩ := hex
    exact absurd hj (Nat.not_lt_zero j)
  | succ n ih =>
    intro i hex
    obtain ⟨j, hj, hd⟩ := hex
    by_cases h0 : dial i = true
    · simp [waitForKafkaAux, h0]
    · have hj0 : j ≠ 0 := by
        intro hj0
        subst hj0
        exact h0 (by simpa using hd)
      obtain ⟨k, rfl⟩ : ∃ k, j = k + 1 := ⟨j - 1, by omega⟩
      have hk : dial (i + 1 + k) = true := by
        have heq : i + 1 + k = i + (k + 1) := by omega
        rw [heq]
        exact hd
      have h1 := ih (i + 1) ⟨k, by omega, hk⟩
      simpa [waitForKafkaAux, h0] using h1

/-- Claim C6: bootstrap dials the broker up to 10 times, sleeping 5
seconds after each failure; if all 10 attempts fail, startup is fatal
whatever happens later, so the process never serves. Once an attempt
within the 10 succeeds, a failing topic-creation request is non-fatal:
the process continues serving. -/
theorem c6_bootstrap_retry (dial : Nat → Bool) :
    ((∀ i, i < 10 → dial i = false) →
      (waitForKafka dial 10 5).1 = .error "could not connect to Kafka" ∧
      ((waitForKafka dial 10 5).2.filter isDialAttempt).length = 10 ∧
      (waitForKafka dial 10 5).2.filter isSleep = List.replicate 10 (.sleep 5) ∧
      ∀ dialAfter createRes, createKafkaTopic dial dialAfter createRes =
        .fatal "Kafka is not ready") ∧
    ((∃ i, i < 10 ∧ dial i = true) →
      (waitForKafka dial 10 5).1 = .ok () ∧
      ∀ e, createKafkaTopic dial true (.error e) = .serving false) := by
  constructor
  · intro h
    have h1 := waitAux_all_fail dial 5 10 0 (by intro j hj; simpa using h j hj)
    refine ⟨h1.1, h1.2.1, h1.2.2, ?_⟩
    intro dialAfter createRes
    have h2 : (waitForKafka dial 10 5).1 = .error "could not connect to Kafka" := h1.1
    simp [createKafkaTopic, h2]
  · intro hex
    obtain ⟨i, hi, hd⟩ := hex
    have h1 : (waitForKafka dial 10 5).1 = .ok () :=
      waitAux_success dial 5 10 0 ⟨i, hi, by simpa using hd⟩
    refine ⟨h1, ?_⟩
    intro e
    simp [createKafkaTopic, h1]

/-- Witness for C6: an always-failing dial is fatal at startup; an
immediately successful dial followed by a failing topic creation still
serves. -/
theorem c6_witness :
    createKafkaTopic (fun _ => false) true (.ok ()) = .fatal "Kafka is not ready" ∧
    createKafkaTopic (fun _ => true) true (.error "topic already exists") = .serving false := by
  refine ⟨((c6_bootstrap_retry (fun _ => false)).1 ?_).2.2.2 true (.ok ()),
    ((c6_bootstrap_retry (fun _ => true)).2 ?_).2 "topic already exists"⟩
  · intro i _
    rfl
  · exact ⟨0, by norm_num, rfl⟩

end Verve
